import Mathlib

/-!
# Controller (Firmware/MotorControl/controller.hpp)

A shallow embedding of the `Controller` class of the motor-control firmware:
its configuration aggregate `Config_t`, the anticogging table `Anticogging_t`,
the runtime state of a controller object, the inline members defined in the
header (`set_input_pos`, `input_pos_updated`,
`Config_t::set_input_filter_bandwidth`) and the construction of a controller
from the default member initialisers.

Conventions.

* A C++ `float` is an IEEE-754 binary32 value, represented by its bit pattern
  (`F32`).  Every literal of the header is written as the bit pattern of the
  value it denotes.
* `uint8_t` / `uint32_t` fields are natural numbers; an initialiser that is
  converted to `uint8_t` goes through `uint8_of_int` (reduction modulo `2^8`).
* A pointer is an optional address; objects live in a memory `Mem`.
* Members that the header only declares are either parameters of the
  definitions that call them, or are modelled from the specification; the
  latter carry a doc comment that says so.
-/

namespace ODrive

/-! ## Scalars -/

/-- A binary32 floating point value, as its 32-bit pattern
(sign bit 31, exponent bits 30..23, fraction bits 22..0). -/
abbrev F32 := Fin 4294967296

namespace F32

/-- Literal `0.0f`. -/
def zero : F32 := 0x00000000
/-- Literal `1.0f`. -/
def one : F32 := 0x3F800000
/-- Literal `2.0f`. -/
def two : F32 := 0x40000000
/-- Literal `20.0f`. -/
def twenty : F32 := 0x41A00000
/-- Literal `10.0f`. -/
def ten : F32 := 0x41200000
/-- Constant expression `1.0f / 6.0f` (correctly rounded quotient). -/
def one_sixth : F32 := 0x3E2AAAAB
/-- Constant expression `2.0f / 6.0f` (correctly rounded quotient). -/
def two_sixths : F32 := 0x3EAAAAAB
/-- Literal `1.2f`. -/
def one_point_two : F32 := 0x3F99999A
/-- Literal `0.01f`. -/
def one_hundredth : F32 := 0x3C23D70A
/-- Literal `0.25f`. -/
def quarter : F32 := 0x3E800000

/-- The sign bit. -/
def sign (x : F32) : Nat := x.val / 2147483648

/-- The biased exponent field. -/
def expo (x : F32) : Nat := (x.val / 8388608) % 256

/-- The fraction field. -/
def frac (x : F32) : Nat := x.val % 8388608

/-- A NaN: exponent field all ones, fraction not zero. -/
def isNaN (x : F32) : Bool := expo x == 255 && frac x != 0

/-- An infinity: exponent field all ones, fraction zero. -/
def isInf (x : F32) : Bool := expo x == 255 && frac x == 0

/-- A zero of either sign. -/
def isZero (x : F32) : Bool := expo x == 0 && frac x == 0

/-- Order key of a value that is not a NaN: the magnitude bits, negated when
the sign bit is set.  Both zeros have key `0`; the key is strictly monotone in
the value denoted. -/
def key (x : F32) : Int :=
  if sign x = 1 then -((x.val % 2147483648 : Nat) : Int)
  else ((x.val % 2147483648 : Nat) : Int)

/-- The comparison `x < y` of two floats: false when either is a NaN. -/
def lt (x y : F32) : Bool := !isNaN x && !isNaN y && decide (key x < key y)

/-- The comparison `x > y` of two floats: false when either is a NaN. -/
def gt (x y : F32) : Bool := lt y x

/-- Significand of a finite value: the value is `sig x * 2^(ex x - 150)`. -/
def sig (x : F32) : Nat := if expo x = 0 then frac x else 8388608 + frac x

/-- Exponent of a finite value: the value is `sig x * 2^(ex x - 150)`. -/
def ex (x : F32) : Nat := if expo x = 0 then 1 else expo x

/-- Number of binary digits of `n`, for `n < 2^fuel`. -/
def bitlen_aux : Nat → Nat → Nat
  | 0, _ => 0
  | fuel + 1, n => if n = 0 then 0 else bitlen_aux fuel (n / 2) + 1

/-- Number of binary digits of `n`, for `n < 2^64`. -/
def bitlen (n : Nat) : Nat := bitlen_aux 64 n

/-- The integer nearest to `m / 2^d`, ties to even. -/
def round_shift (m d : Nat) : Nat :=
  if d = 0 then m
  else
    let q := m / 2 ^ d
    let r := m % 2 ^ d
    let half := 2 ^ (d - 1)
    if r > half ∨ (r = half ∧ q % 2 = 1) then q + 1 else q

/-- The bit pattern of a float from its sign and magnitude bits. -/
def of_parts (s mag : Nat) : F32 :=
  ⟨(s * 2147483648 + mag) % 4294967296, Nat.mod_lt _ (by decide)⟩

/-- Rounding to binary32 (to nearest, ties to even) of the exact value
`m * 2^(q - 300)` with sign `s`; overflow gives an infinity. -/
def pack (s m q : Nat) : F32 :=
  if m = 0 then of_parts s 0
  else
    let n := bitlen m
    -- exponent field for which the significand has 24 digits; at least 1
    let e := if n + q < 175 then 1 else n + q - 174
    -- the significand is m * 2^(q - 150 - e), rounded
    let sg := if e + 150 ≤ q then m * 2 ^ (q - (e + 150))
              else round_shift m (e + 150 - q)
    let mag := (e - 1) * 8388608 + sg
    if mag ≥ 2139095040 then of_parts s 2139095040 else of_parts s mag

/-- The default quiet NaN. -/
def nan : F32 := 0x7FC00000

/-- The product `x * y` of two floats, rounded to nearest, ties to even. -/
def mul (x y : F32) : F32 :=
  let s := (sign x + sign y) % 2
  if isNaN x || isNaN y then nan
  else if isInf x || isInf y then
    if isZero x || isZero y then nan else of_parts s 2139095040
  else pack s (sig x * sig y) (ex x + ex y)

end F32

/-- Conversion of an `int` value to `uint8_t`: the value modulo `2^8`. -/
def uint8_of_int (i : Int) : Nat := (i % 256).toNat

/-- A machine address. -/
abbrev Addr := Nat

/-- A (possibly null) pointer: `none` is `nullptr`. -/
abbrev Ptr := Option Addr

/-! ## Enumerations declared by the interface base class -/

/-- Modelled from the spec: the `ControlMode` enumeration (declared in
`ODriveIntf::ControllerIntf`, absent from the header).  The spec lists the
control modes torque, velocity and position; the header names
`CONTROL_MODE_POSITION_CONTROL`. -/
inductive ControlMode where
  | CONTROL_MODE_TORQUE_CONTROL
  | CONTROL_MODE_VELOCITY_CONTROL
  | CONTROL_MODE_POSITION_CONTROL
  deriving DecidableEq, Repr

/-- Modelled from the spec: the `InputMode` enumeration (declared in
`ODriveIntf::ControllerIntf`, absent from the header).  The spec lists
pass-through, position filter, velocity ramp, trapezoidal trajectory, mirror,
tuning and inactive; the header names `INPUT_MODE_PASSTHROUGH`. -/
inductive InputMode where
  | INPUT_MODE_INACTIVE
  | INPUT_MODE_PASSTHROUGH
  | INPUT_MODE_VEL_RAMP
  | INPUT_MODE_POS_FILTER
  | INPUT_MODE_TRAP_TRAJ
  | INPUT_MODE_MIRROR
  | INPUT_MODE_TUNING
  deriving DecidableEq, Repr

/-- Modelled from the spec: the `Error` enumeration (declared in
`ODriveIntf::ControllerIntf`, absent from the header).  The header names
`ERROR_NONE`; the other kinds are the error kinds the spec lists: a missing
or invalid estimate, overspeed, an invalid mirror source, a calibration
failure and an invalid configuration. -/
inductive Error where
  | ERROR_NONE
  | ERROR_OVERSPEED
  | ERROR_INVALID_ESTIMATE
  | ERROR_INVALID_MIRROR_AXIS
  | ERROR_ANTICOGGING_CALIBRATION
  | ERROR_INVALID_CONFIG
  deriving DecidableEq, Repr

/-! ## Ports -/

/-- Modelled from the spec: `InputPort<float>` (class template absent from
the header).  An input port delivers a scalar estimate together with a
validity flag. -/
structure InputPort where
  value : F32
  valid : Bool
  deriving DecidableEq, Repr

/-- The estimate an input port presents this cycle, if it is valid. -/
def InputPort.present (p : InputPort) : Option F32 :=
  if p.valid then some p.value else none

/-- A default-constructed input port: nothing is connected, so it presents no
valid estimate. -/
def InputPort.unconnected : InputPort := { value := F32.zero, valid := false }

/-- Modelled from the spec: `OutputPort<float>` (class template absent from
the header).  An output port is an owned slot with a validity bit; the slot
becomes valid when the producer writes it. -/
structure OutputPort where
  content : F32
  valid : Bool
  deriving DecidableEq, Repr

/-- Construction `OutputPort<float> p = v`: the slot holds `v`, nothing has
been written in a cycle yet. -/
def OutputPort.init (v : F32) : OutputPort := { content := v, valid := false }

/-- Assignment `p = v` by the producer: the slot holds `v` and is valid. -/
def OutputPort.write (_p : OutputPort) (v : F32) : OutputPort :=
  { content := v, valid := true }

/-! ## Data model of the header -/

/-- Number of entries of `cogging_map`. -/
def COGGING_MAP_SIZE : Nat := 3600

/-- The struct `Controller::Anticogging_t`. -/
structure Anticogging_t where
  index : Nat
  cogging_map : Fin COGGING_MAP_SIZE → F32
  pre_calibrated : Bool
  calib_anticogging : Bool
  calib_pos_threshold : F32
  calib_vel_threshold : F32
  cogging_ratio : F32
  anticogging_enabled : Bool

/-- Default initialisation of `Anticogging_t`.  `cogging_map` has no
initialiser: its contents are whatever the storage holds. -/
def Anticogging_t.default (cogging_map : Fin COGGING_MAP_SIZE → F32) :
    Anticogging_t :=
  { index := 0
    cogging_map := cogging_map
    pre_calibrated := false
    calib_anticogging := false
    calib_pos_threshold := F32.one
    calib_vel_threshold := F32.one
    cogging_ratio := F32.one
    anticogging_enabled := true }

/-- The struct `Controller::Config_t`. -/
structure Config_t where
  control_mode : ControlMode
  input_mode : InputMode
  pos_gain : F32
  vel_gain : F32
  vel_integrator_gain : F32
  vel_limit : F32
  vel_limit_tolerance : F32
  vel_ramp_rate : F32
  torque_ramp_rate : F32
  circular_setpoints : Bool
  circular_setpoint_range : F32
  inertia : F32
  input_filter_bandwidth : F32
  homing_speed : F32
  anticogging : Anticogging_t
  gain_scheduling_width : F32
  enable_gain_scheduling : Bool
  enable_vel_limit : Bool
  enable_overspeed_error : Bool
  enable_current_mode_vel_limit : Bool
  axis_to_mirror : Nat
  mirror_ratio : F32
  load_encoder_axis : Nat
  parent : Ptr

/-- Default initialisation of `Config_t`.  `parent` has no initialiser and
`anticogging.cogging_map` has none either: both are indeterminate. -/
def Config_t.default (cogging_map : Fin COGGING_MAP_SIZE → F32) (parent : Ptr) :
    Config_t :=
  { control_mode := ControlMode.CONTROL_MODE_POSITION_CONTROL
    input_mode := InputMode.INPUT_MODE_PASSTHROUGH
    pos_gain := F32.twenty
    vel_gain := F32.one_sixth
    vel_integrator_gain := F32.two_sixths
    vel_limit := F32.two
    vel_limit_tolerance := F32.one_point_two
    vel_ramp_rate := F32.one
    torque_ramp_rate := F32.one_hundredth
    circular_setpoints := false
    circular_setpoint_range := F32.one
    inertia := F32.zero
    input_filter_bandwidth := F32.two
    homing_speed := F32.quarter
    anticogging := Anticogging_t.default cogging_map
    gain_scheduling_width := F32.ten
    enable_gain_scheduling := false
    enable_vel_limit := true
    enable_overspeed_error := true
    enable_current_mode_vel_limit := true
    axis_to_mirror := uint8_of_int (-1)
    mirror_ratio := F32.one
    load_encoder_axis := uint8_of_int (-1)
    parent := parent }

/-- The data members of class `Controller`, in declaration order. -/
structure Controller where
  config_ : Config_t
  axis_ : Ptr
  error_ : Error
  pos_estimate_linear_src_ : InputPort
  pos_estimate_circular_src_ : InputPort
  vel_estimate_src_ : InputPort
  pos_wrap_src_ : InputPort
  pos_setpoint_ : F32
  vel_setpoint_ : F32
  vel_integrator_torque_ : F32
  torque_setpoint_ : F32
  input_pos_ : F32
  input_vel_ : F32
  input_torque_ : F32
  input_filter_kp_ : F32
  input_filter_ki_ : F32
  input_pos_updated_ : Bool
  trajectory_done_ : Bool
  anticogging_valid_ : Bool
  torque_output_ : OutputPort

/-- The constructor `Controller() {}`: every member takes its default member
initialiser; the members without one (`config_.parent`, the cogging map) are
indeterminate and are given as arguments. -/
def Controller.new (cogging_map : Fin COGGING_MAP_SIZE → F32) (parent : Ptr) :
    Controller :=
  { config_ := Config_t.default cogging_map parent
    axis_ := none
    error_ := Error.ERROR_NONE
    pos_estimate_linear_src_ := InputPort.unconnected
    pos_estimate_circular_src_ := InputPort.unconnected
    vel_estimate_src_ := InputPort.unconnected
    pos_wrap_src_ := InputPort.unconnected
    pos_setpoint_ := F32.zero
    vel_setpoint_ := F32.zero
    vel_integrator_torque_ := F32.zero
    torque_setpoint_ := F32.zero
    input_pos_ := F32.zero
    input_vel_ := F32.zero
    input_torque_ := F32.zero
    input_filter_kp_ := F32.zero
    input_filter_ki_ := F32.zero
    input_pos_updated_ := false
    trajectory_done_ := true
    anticogging_valid_ := false
    torque_output_ := OutputPort.init F32.zero }

/-! ## Inline members of the header -/

/-- The member `constexpr void input_pos_updated()`. -/
def Controller.input_pos_updated (c : Controller) : Controller :=
  { c with input_pos_updated_ := true }

/-- The member `void set_input_pos(float value)`:
`input_pos_ = value; input_pos_updated();`. -/
def Controller.set_input_pos (c : Controller) (value : F32) : Controller :=
  Controller.input_pos_updated { c with input_pos_ := value }

/-! ## Objects in memory and the custom setter of `Config_t` -/

/-- The controller objects of the program, by address. -/
abbrev Mem := Addr → Option Controller

/-- The memory in which the object at `a` is `c`. -/
def Mem.write (m : Mem) (a : Addr) (c : Controller) : Mem :=
  fun x => if x = a then some c else m x

/-- The assignment `input_filter_bandwidth = value` of a `Config_t`. -/
def Config_t.store_input_filter_bandwidth (cfg : Config_t) (value : F32) :
    Config_t :=
  { cfg with input_filter_bandwidth := value }

/-- The member `void Config_t::set_input_filter_bandwidth(float value)`:
`input_filter_bandwidth = value; parent->update_filter_gains();`
called on the `config_` member of the controller object at address `self`.

`Controller::update_filter_gains` is only declared in the header: it is an
argument, a transformer of the memory that is given the address of the object
it is called on.  Dereferencing a `parent` that is null or designates no
object has no defined result (`none`). -/
def Config_t.set_input_filter_bandwidth
    (update_filter_gains : Mem → Addr → Mem)
    (m : Mem) (self : Addr) (value : F32) : Option Mem :=
  match m self with
  | none => none
  | some c =>
    let m1 := m.write self
      { c with config_ := c.config_.store_input_filter_bandwidth value }
    match c.config_.parent with
    | none => none
    | some p =>
      match m1 p with
      | none => none
      | some _ => some (update_filter_gains m1 p)

/-- An instance of `update_filter_gains` to run the setter on: the object at
`a` gets the bandwidth it finds in its configuration as integral gain and the
product of that gain with itself as proportional gain.  It stands for the
firmware routine only in that it reads the bandwidth and writes both gains. -/
def sample_update_filter_gains (m : Mem) (a : Addr) : Mem :=
  match m a with
  | none => m
  | some c =>
    m.write a
      { c with
        input_filter_ki_ := c.config_.input_filter_bandwidth
        input_filter_kp_ :=
          F32.mul c.config_.input_filter_bandwidth c.config_.input_filter_bandwidth }

/-- A memory with one controller, at address `7`, freshly constructed, whose
`config_.parent` designates it. -/
def sample_mem : Mem :=
  fun a => if a = 7 then some (Controller.new (fun _ => F32.zero) (some 7)) else none

/-! ## Members declared in the header and defined elsewhere -/

/-- Modelled from the spec: `Controller::set_error` (only declared in the
header).  It records the error and leaves it for the enclosing axis to
observe. -/
def Controller.set_error (c : Controller) (error : Error) : Controller :=
  { c with error_ := error }

/-- Modelled from the spec: `Controller::reset` (only declared in the header).
It zeroes the setpoints, the velocity integrator, the filter state (the
filtered input values) and the "new target" / "trajectory done" flags; the
configuration, the anticogging table, the filter gains, the ports and the
error are left as they are. -/
def Controller.reset (c : Controller) : Controller :=
  { c with
    pos_setpoint_ := F32.zero
    vel_setpoint_ := F32.zero
    torque_setpoint_ := F32.zero
    vel_integrator_torque_ := F32.zero
    input_pos_ := F32.zero
    input_vel_ := F32.zero
    input_torque_ := F32.zero
    input_pos_updated_ := false
    trajectory_done_ := false }

/-- The estimates a control cycle has pulled from the input ports. -/
structure Estimates where
  pos : Option F32
  vel : Option F32
  deriving DecidableEq, Repr

/-- Modelled from the spec: the first step of `Controller::update` (only
declared in the header).  The cycle pulls the position estimate (the circular
one when circular setpoints are enabled, the linear one otherwise) and the
velocity estimate.  The position loop runs in position mode only and the
velocity loop in position or velocity mode; an estimate that a stage of this
cycle requires and that is not valid is fatal for the cycle (`none`). -/
def pull_estimates (c : Controller) : Option Estimates :=
  let pos :=
    if c.config_.circular_setpoints then c.pos_estimate_circular_src_.present
    else c.pos_estimate_linear_src_.present
  let vel := c.vel_estimate_src_.present
  let pos_required :=
    decide (c.config_.control_mode = ControlMode.CONTROL_MODE_POSITION_CONTROL)
  let vel_required :=
    decide (c.config_.control_mode ≠ ControlMode.CONTROL_MODE_TORQUE_CONTROL)
  if (pos_required && pos.isNone) || (vel_required && vel.isNone) then none
  else some { pos := pos, vel := vel }

/-- What the shaping stage and the position, velocity and torque loops of one
cycle produce: the new setpoints, integrator and flags, and the torque
command of the cycle. -/
structure StageOut where
  pos_setpoint_ : F32
  vel_setpoint_ : F32
  vel_integrator_torque_ : F32
  torque_setpoint_ : F32
  input_pos_updated_ : Bool
  trajectory_done_ : Bool
  torque : F32
  deriving DecidableEq, Repr

/-- The runtime state after the stages of a cycle have run. -/
def Controller.commit (c : Controller) (o : StageOut) : Controller :=
  { c with
    pos_setpoint_ := o.pos_setpoint_
    vel_setpoint_ := o.vel_setpoint_
    vel_integrator_torque_ := o.vel_integrator_torque_
    torque_setpoint_ := o.torque_setpoint_
    input_pos_updated_ := o.input_pos_updated_
    trajectory_done_ := o.trajectory_done_ }

/-- Modelled from the spec: the overspeed test of the limit stage of
`Controller::update`.  The measured velocity exceeds limit × tolerance and the
overspeed error is enabled. -/
def overspeed (c : Controller) (est : Estimates) : Bool :=
  c.config_.enable_overspeed_error &&
    (match est.vel with
     | some v => F32.gt v (F32.mul c.config_.vel_limit c.config_.vel_limit_tolerance)
     | none => false)

/-- Modelled from the spec: `Controller::update` (only declared in the
header), one control cycle; the result is the returned `bool` and the state
after the call.

1. The estimates are pulled; a required estimate that is missing sets an
   error and the cycle returns failure without a torque output.
2. The shaping stage and the position, velocity and torque loops run.  Their
   arithmetic is not part of the header: they are the argument `stages`.
3. Limits: when the measured velocity exceeds limit × tolerance and the
   overspeed error is enabled, the cycle ends in an overspeed fault instead of
   producing a torque command.
4. Otherwise the torque command is written to the output port and the cycle
   returns success. -/
def Controller.update (stages : Controller → Estimates → StageOut)
    (c : Controller) : Bool × Controller :=
  match pull_estimates c with
  | none => (false, c.set_error Error.ERROR_INVALID_ESTIMATE)
  | some est =>
    let o := stages c est
    let c1 := c.commit o
    if overspeed c est then (false, c1.set_error Error.ERROR_OVERSPEED)
    else (true, { c1 with torque_output_ := c1.torque_output_.write o.torque })

/-- An instance of the stages of a cycle to run `update` on: the setpoints
follow the raw targets, the new-target flag is consumed and the torque command
is the torque target. -/
def sample_stages (c : Controller) (_est : Estimates) : StageOut :=
  { pos_setpoint_ := c.input_pos_
    vel_setpoint_ := c.input_vel_
    vel_integrator_torque_ := c.vel_integrator_torque_
    torque_setpoint_ := c.input_torque_
    input_pos_updated_ := false
    trajectory_done_ := c.trajectory_done_
    torque := c.input_torque_ }

/-- A freshly constructed controller whose linear position port presents
`0.0f` and whose velocity port presents `vel`. -/
def sample_controller (vel : F32) : Controller :=
  { Controller.new (fun _ => F32.zero) none with
    pos_estimate_linear_src_ := { value := F32.zero, valid := true }
    vel_estimate_src_ := { value := vel, valid := true } }

/-! ## Anticogging table lookup -/

/-- Modelled from the spec: the bin of the anticogging table that belongs to
a position (only the table is in the header, the code that indexes it is
not).  The position is an exact number of turns; the index is the position
modulo one revolution, quantized to 3600 steps. -/
def anticogging_bin (pos : ℚ) : Nat :=
  (Int.floor (Int.fract pos * (COGGING_MAP_SIZE : ℚ))).toNat

/-- Modelled from the spec: the lookup of the table entry for a position.
An index outside the array has no defined result (`none`). -/
def Anticogging_t.lookup (a : Anticogging_t) (pos : ℚ) : Option F32 :=
  if h : anticogging_bin pos < COGGING_MAP_SIZE then
    some (a.cogging_map ⟨anticogging_bin pos, h⟩)
  else none

/-- Modelled from the spec: the condition under which the control law reads
the table (the code that reads it is not in the header).  The table is
trusted when the enable flag and the runtime valid flag are both set. -/
def Controller.anticogging_trusted (c : Controller) : Bool :=
  c.config_.anticogging.anticogging_enabled && c.anticogging_valid_

/-- The identifiers of the axes of a board with `axis_count` axes are
`0, …, axis_count - 1`. -/
def is_axis_id (axis_count id : Nat) : Bool := decide (id < axis_count)

/-! ## Properties -/

/-- Claim C1: after `set_input_pos v` the raw position target is `v` and the
"new target received" flag is set, whatever the state was before the call. -/
theorem set_input_pos_stores_target_and_flags (c : Controller) (v : F32) :
    (c.set_input_pos v).input_pos_ = v ∧
      (c.set_input_pos v).input_pos_updated_ = true :=
  ⟨rfl, rfl⟩

/-- Claim C2: for a controller at address `self` whose `config_.parent`
designates that controller, `set_input_filter_bandwidth v` is defined and its
result is `update_filter_gains`, run on that controller, applied to the memory
in which the controller's `input_filter_bandwidth` is already `v` (and in which
nothing else has changed). -/
theorem set_input_filter_bandwidth_recomputes_gains
    (update_filter_gains : Mem → Addr → Mem) (m : Mem) (self : Addr)
    (c : Controller) (v : F32)
    (h_obj : m self = some c) (h_parent : c.config_.parent = some self) :
    Config_t.set_input_filter_bandwidth update_filter_gains m self v =
        some (update_filter_gains
          (m.write self { c with config_ := { c.config_ with input_filter_bandwidth := v } })
          self) ∧
      ((m.write self
          { c with config_ := { c.config_ with input_filter_bandwidth := v } }) self).map
        (fun c1 => c1.config_.input_filter_bandwidth) = some v := by
  constructor
  · simp [Config_t.set_input_filter_bandwidth, h_obj, h_parent, Mem.write,
      Config_t.store_input_filter_bandwidth]
  · simp [Mem.write]

/-- Witness of claim C2: the setter run on the controller of `sample_mem`
with the sample gain routine and the bandwidth `10.0f`. -/
theorem set_input_filter_bandwidth_recomputes_gains_witness :
    sample_mem 7 = some (Controller.new (fun _ => F32.zero) (some 7)) ∧
      (Controller.new (fun _ => F32.zero) (some 7)).config_.parent = some 7 ∧
      Config_t.set_input_filter_bandwidth sample_update_filter_gains sample_mem 7 F32.ten =
        some (sample_update_filter_gains
          (sample_mem.write 7
            { Controller.new (fun _ => F32.zero) (some 7) with
              config_ :=
                { (Controller.new (fun _ => F32.zero) (some 7)).config_ with
                  input_filter_bandwidth := F32.ten } })
          7) :=
  ⟨rfl, rfl,
    (set_input_filter_bandwidth_recomputes_gains sample_update_filter_gains sample_mem 7
      (Controller.new (fun _ => F32.zero) (some 7)) F32.ten rfl rfl).1⟩

/-- Claim C3: a newly constructed controller is in position control mode with
the pass-through input mode. -/
theorem new_controller_initial_modes (cogging_map : Fin COGGING_MAP_SIZE → F32)
    (parent : Ptr) :
    (Controller.new cogging_map parent).config_.control_mode =
        ControlMode.CONTROL_MODE_POSITION_CONTROL ∧
      (Controller.new cogging_map parent).config_.input_mode =
        InputMode.INPUT_MODE_PASSTHROUGH :=
  ⟨rfl, rfl⟩

/-- Claim C4: `reset` is idempotent, it leaves the setpoints, the velocity
integrator and the filter state at zero and the "new target" and "trajectory
done" flags cleared, and it changes neither the configuration nor the
anticogging table in it. -/
theorem reset_idempotent_and_frames_config (c : Controller) :
    c.reset.reset = c.reset ∧
      (c.reset.pos_setpoint_ = F32.zero ∧ c.reset.vel_setpoint_ = F32.zero ∧
        c.reset.torque_setpoint_ = F32.zero ∧
        c.reset.vel_integrator_torque_ = F32.zero ∧
        c.reset.input_pos_ = F32.zero ∧ c.reset.input_vel_ = F32.zero ∧
        c.reset.input_torque_ = F32.zero ∧
        c.reset.input_pos_updated_ = false ∧ c.reset.trajectory_done_ = false) ∧
      c.reset.config_ = c.config_ ∧
      c.reset.config_.anticogging = c.config_.anticogging :=
  ⟨rfl, ⟨rfl, rfl, rfl, rfl, rfl, rfl, rfl, rfl, rfl⟩, rfl, rfl⟩

/-- A float that is below another is not above it. -/
theorem F32.gt_eq_false_of_lt (x y : F32) (h : F32.lt x y = true) :
    F32.gt x y = false := by
  simp only [F32.lt, F32.gt, Bool.and_eq_true, decide_eq_true_eq] at h ⊢
  obtain ⟨_, hk⟩ := h
  have hk2 : ¬ F32.key y < F32.key x := not_lt.mpr (le_of_lt hk)
  simp [hk2]

/-- The state a cycle leaves when its estimates are `est`. -/
theorem Controller.update_of_estimates (stages : Controller → Estimates → StageOut)
    (c : Controller) (est : Estimates) (h_est : pull_estimates c = some est) :
    c.update stages =
      if overspeed c est then
        (false, (c.commit (stages c est)).set_error Error.ERROR_OVERSPEED)
      else
        (true,
          { c.commit (stages c est) with
            torque_output_ :=
              (c.commit (stages c est)).torque_output_.write (stages c est).torque }) := by
  simp [Controller.update, h_est]

/-- Claim C5: in a cycle with overspeed detection enabled whose estimates were
obtained with measured velocity `v`, where `L` is the velocity limit and `T`
the tolerance: if `v` is below `L × T` the cycle raises no overspeed fault (it
returns success, leaves the error as it was and writes the torque command of
the cycle to the output port); if `v` is above `L × T` the cycle records the
overspeed error, returns failure and leaves the output port as it was. -/
theorem update_overspeed_fault (stages : Controller → Estimates → StageOut)
    (c : Controller) (est : Estimates) (v : F32)
    (h_en : c.config_.enable_overspeed_error = true)
    (h_est : pull_estimates c = some est) (h_v : est.vel = some v) :
    (F32.lt v (F32.mul c.config_.vel_limit c.config_.vel_limit_tolerance) = true →
        (c.update stages).1 = true ∧
          (c.update stages).2.error_ = c.error_ ∧
          (c.update stages).2.torque_output_ =
            c.torque_output_.write (stages c est).torque) ∧
      (F32.gt v (F32.mul c.config_.vel_limit c.config_.vel_limit_tolerance) = true →
        (c.update stages).1 = false ∧
          (c.update stages).2.error_ = Error.ERROR_OVERSPEED ∧
          (c.update stages).2.torque_output_ = c.torque_output_) := by
  rw [Controller.update_of_estimates stages c est h_est]
  constructor
  · intro h_lt
    have h_no : overspeed c est = false := by
      simp [overspeed, h_v, F32.gt_eq_false_of_lt _ _ h_lt]
    simp [h_no, Controller.commit]
  · intro h_gt
    have h_yes : overspeed c est = true := by
      simp [overspeed, h_en, h_v, h_gt]
    simp [h_yes, Controller.commit, Controller.set_error]

/-- Witness of claim C5: with the default limit `2.0f` and tolerance `1.2f`, a
cycle with measured velocity `3.0f` ends in the overspeed fault. -/
theorem update_overspeed_fault_witness :
    (sample_controller 0x40400000).config_.enable_overspeed_error = true ∧
      pull_estimates (sample_controller 0x40400000) =
        some { pos := some F32.zero, vel := some 0x40400000 } ∧
      F32.gt 0x40400000 (F32.mul F32.two F32.one_point_two) = true ∧
      ((sample_controller 0x40400000).update sample_stages).1 = false ∧
      ((sample_controller 0x40400000).update sample_stages).2.error_ =
        Error.ERROR_OVERSPEED ∧
      ((sample_controller 0x40400000).update sample_stages).2.torque_output_ =
        OutputPort.init F32.zero :=
  ⟨rfl, by decide, by decide,
    (update_overspeed_fault sample_stages (sample_controller 0x40400000)
      { pos := some F32.zero, vel := some 0x40400000 } 0x40400000 rfl (by decide) rfl).2
      (by decide)⟩

/-- A cycle of the sample controller with measured velocity `1.0f`, below
`2.0f × 1.2f`, succeeds and writes its torque command. -/
theorem update_below_limit_example :
    F32.lt F32.one (F32.mul F32.two F32.one_point_two) = true ∧
      ((sample_controller F32.one).update sample_stages).1 = true ∧
      ((sample_controller F32.one).update sample_stages).2.error_ = Error.ERROR_NONE ∧
      ((sample_controller F32.one).update sample_stages).2.torque_output_ =
        { content := F32.zero, valid := true } := by
  decide

/-- The bin of a position is an index of the table. -/
theorem anticogging_bin_lt (pos : ℚ) : anticogging_bin pos < COGGING_MAP_SIZE := by
  have h0 : (0 : ℚ) ≤ Int.fract pos := Int.fract_nonneg pos
  have h1 : Int.fract pos < 1 := Int.fract_lt_one pos
  have hf0 : 0 ≤ Int.floor (Int.fract pos * (COGGING_MAP_SIZE : ℚ)) := by
    apply Int.floor_nonneg.mpr
    have : (0 : ℚ) ≤ (COGGING_MAP_SIZE : ℚ) := by simp [COGGING_MAP_SIZE]
    positivity
  have hf1 : Int.floor (Int.fract pos * (COGGING_MAP_SIZE : ℚ)) < 3600 := by
    apply Int.floor_lt.mpr
    simp only [COGGING_MAP_SIZE]
    push_cast
    linarith
  simp only [anticogging_bin, COGGING_MAP_SIZE]
  simp only [COGGING_MAP_SIZE] at hf0 hf1
  omega

/-- Claim C6: the table has 3600 bins, the bin of a position and the bin of
that position plus one full revolution are the same, every bin computed is an
index `0..3599` of `cogging_map`, and so the lookups at both positions are
defined and return the same entry. -/
theorem anticogging_bin_wraps (a : Anticogging_t) (pos : ℚ) :
    COGGING_MAP_SIZE = 3600 ∧
      anticogging_bin (pos + 1) = anticogging_bin pos ∧
      anticogging_bin pos < 3600 ∧
      a.lookup pos = some (a.cogging_map ⟨anticogging_bin pos, anticogging_bin_lt pos⟩) ∧
      a.lookup (pos + 1) = a.lookup pos := by
  have h_bin : anticogging_bin (pos + 1) = anticogging_bin pos := by
    simp [anticogging_bin, Int.fract_add_one]
  refine ⟨rfl, h_bin, anticogging_bin_lt pos, ?_, ?_⟩
  · simp [Anticogging_t.lookup, anticogging_bin_lt pos]
  · simp [Anticogging_t.lookup, anticogging_bin_lt, h_bin]

/-- Examples of bins: a quarter turn is bin 900, as is a quarter turn less
three revolutions; the last bin is 3599. -/
theorem anticogging_bin_examples :
    anticogging_bin (1 / 4) = 900 ∧ anticogging_bin (1 / 4 - 3) = 900 ∧
      anticogging_bin (35999 / 36000) = 3599 ∧ anticogging_bin 0 = 0 := by
  refine ⟨?_, ?_, ?_, ?_⟩ <;>
    simp only [anticogging_bin, COGGING_MAP_SIZE] <;>
    norm_num [Int.fract, Int.floor_eq_iff] <;> rfl

/-- Claim C7: in the default configuration `axis_to_mirror` and
`load_encoder_axis` both hold the value of `-1` converted to `uint8_t`, which
is 255, and on a board with at most 255 axes no axis has that identifier. -/
theorem default_axis_ids_are_out_of_range (cogging_map : Fin COGGING_MAP_SIZE → F32)
    (parent : Ptr) (axis_count id : Nat)
    (h_count : axis_count ≤ 255) (h_id : is_axis_id axis_count id = true) :
    uint8_of_int (-1) = 255 ∧
      (Config_t.default cogging_map parent).axis_to_mirror = 255 ∧
      (Config_t.default cogging_map parent).load_encoder_axis = 255 ∧
      id ≠ (Config_t.default cogging_map parent).axis_to_mirror ∧
      id ≠ (Config_t.default cogging_map parent).load_encoder_axis := by
  have h255 : uint8_of_int (-1) = 255 := by decide
  have hlt : id < 255 :=
    Nat.lt_of_lt_of_le (by simpa [is_axis_id] using h_id) h_count
  refine ⟨h255, h255, h255, ?_, ?_⟩
  · show id ≠ uint8_of_int (-1)
    omega
  · show id ≠ uint8_of_int (-1)
    omega

/-- Witness of claim C7: a board with two axes, axis 1. -/
theorem default_axis_ids_are_out_of_range_witness :
    (2 : Nat) ≤ 255 ∧ is_axis_id 2 1 = true ∧
      (Config_t.default (fun _ => F32.zero) none).axis_to_mirror = 255 ∧
      (1 : Nat) ≠ (Config_t.default (fun _ => F32.zero) none).axis_to_mirror :=
  ⟨by decide, by decide,
    (default_axis_ids_are_out_of_range (fun _ => F32.zero) none 2 1 (by decide)
      (by decide)).2.1,
    (default_axis_ids_are_out_of_range (fun _ => F32.zero) none 2 1 (by decide)
      (by decide)).2.2.2.1⟩

/-- Claim C8: `set_input_pos v` changes no member other than `input_pos_` and
`input_pos_updated_`: the state after the call is the state before it with
these two members replaced, and in particular the configuration, the error,
the setpoints, the integrator, the other raw targets, the filter gains, the
"trajectory done" and "anticogging valid" flags, the ports and the axis
pointer are as before. -/
theorem set_input_pos_frame (c : Controller) (v : F32) :
    c.set_input_pos v = { c with input_pos_ := v, input_pos_updated_ := true } ∧
      (c.set_input_pos v).config_ = c.config_ ∧
      (c.set_input_pos v).error_ = c.error_ ∧
      (c.set_input_pos v).pos_setpoint_ = c.pos_setpoint_ ∧
      (c.set_input_pos v).vel_setpoint_ = c.vel_setpoint_ ∧
      (c.set_input_pos v).torque_setpoint_ = c.torque_setpoint_ ∧
      (c.set_input_pos v).vel_integrator_torque_ = c.vel_integrator_torque_ ∧
      (c.set_input_pos v).input_vel_ = c.input_vel_ ∧
      (c.set_input_pos v).input_torque_ = c.input_torque_ ∧
      (c.set_input_pos v).input_filter_kp_ = c.input_filter_kp_ ∧
      (c.set_input_pos v).input_filter_ki_ = c.input_filter_ki_ ∧
      (c.set_input_pos v).trajectory_done_ = c.trajectory_done_ ∧
      (c.set_input_pos v).anticogging_valid_ = c.anticogging_valid_ ∧
      (c.set_input_pos v).axis_ = c.axis_ ∧
      (c.set_input_pos v).pos_estimate_linear_src_ = c.pos_estimate_linear_src_ ∧
      (c.set_input_pos v).pos_estimate_circular_src_ = c.pos_estimate_circular_src_ ∧
      (c.set_input_pos v).vel_estimate_src_ = c.vel_estimate_src_ ∧
      (c.set_input_pos v).pos_wrap_src_ = c.pos_wrap_src_ ∧
      (c.set_input_pos v).torque_output_ = c.torque_output_ :=
  ⟨rfl, rfl, rfl, rfl, rfl, rfl, rfl, rfl, rfl, rfl, rfl, rfl, rfl, rfl, rfl, rfl, rfl,
    rfl, rfl⟩

/-- Claim C9: the newest target wins (`set_input_pos a` followed by
`set_input_pos b` is `set_input_pos b`, so `set_input_pos v` is idempotent),
`input_pos_updated` is idempotent, and a "new target received" flag that is
set before `input_pos_updated` or `set_input_pos v` is still set afterwards. -/
theorem set_input_pos_newest_wins (c : Controller) (a b v : F32) :
    (c.set_input_pos a).set_input_pos b = c.set_input_pos b ∧
      (c.set_input_pos v).set_input_pos v = c.set_input_pos v ∧
      c.input_pos_updated.input_pos_updated = c.input_pos_updated ∧
      (c.input_pos_updated_ = true →
        c.input_pos_updated.input_pos_updated_ = true ∧
          (c.set_input_pos v).input_pos_updated_ = true) :=
  ⟨rfl, rfl, rfl, fun _ => ⟨rfl, rfl⟩⟩

/-- Witness of claim C9: a controller that has received the target `1.0f`,
so that its flag is set, receives the target `2.0f` and then `10.0f`. -/
theorem set_input_pos_newest_wins_witness :
    ((Controller.new (fun _ => F32.zero) none).set_input_pos F32.one).input_pos_updated_ =
        true ∧
      (((Controller.new (fun _ => F32.zero) none).set_input_pos F32.one).set_input_pos
          F32.two).set_input_pos F32.ten =
        ((Controller.new (fun _ => F32.zero) none).set_input_pos F32.one).set_input_pos
          F32.ten ∧
      (((Controller.new (fun _ => F32.zero) none).set_input_pos F32.one).set_input_pos
          F32.ten).input_pos_updated_ = true :=
  ⟨rfl,
    (set_input_pos_newest_wins
      ((Controller.new (fun _ => F32.zero) none).set_input_pos F32.one)
      F32.two F32.ten F32.ten).1,
    ((set_input_pos_newest_wins
      ((Controller.new (fun _ => F32.zero) none).set_input_pos F32.one)
      F32.two F32.ten F32.ten).2.2.2 rfl).2⟩

/-- Claim C10: in a newly constructed controller the setpoints, the velocity
integrator, the raw targets and both filter gains are `0.0f`, the error is
`ERROR_NONE`, the "new target received" flag is clear, the "trajectory done"
flag is set, and the anticogging table is not trusted: `anticogging_enabled`
is set but `anticogging_valid_` is clear, with `pre_calibrated` and
`calib_anticogging` clear and the sweep index 0. -/
theorem new_controller_runtime_state (cogging_map : Fin COGGING_MAP_SIZE → F32)
    (parent : Ptr) :
    ((Controller.new cogging_map parent).pos_setpoint_ = F32.zero ∧
        (Controller.new cogging_map parent).vel_setpoint_ = F32.zero ∧
        (Controller.new cogging_map parent).torque_setpoint_ = F32.zero ∧
        (Controller.new cogging_map parent).vel_integrator_torque_ = F32.zero ∧
        (Controller.new cogging_map parent).input_pos_ = F32.zero ∧
        (Controller.new cogging_map parent).input_vel_ = F32.zero ∧
        (Controller.new cogging_map parent).input_torque_ = F32.zero ∧
        (Controller.new cogging_map parent).input_filter_kp_ = F32.zero ∧
        (Controller.new cogging_map parent).input_filter_ki_ = F32.zero) ∧
      (F32.zero.val = 0 ∧
        (Controller.new cogging_map parent).error_ = Error.ERROR_NONE ∧
        (Controller.new cogging_map parent).input_pos_updated_ = false ∧
        (Controller.new cogging_map parent).trajectory_done_ = true) ∧
      ((Controller.new cogging_map parent).config_.anticogging.anticogging_enabled = true ∧
        (Controller.new cogging_map parent).anticogging_valid_ = false ∧
        (Controller.new cogging_map parent).anticogging_trusted = false ∧
        (Controller.new cogging_map parent).config_.anticogging.pre_calibrated = false ∧
        (Controller.new cogging_map parent).config_.anticogging.calib_anticogging = false ∧
        (Controller.new cogging_map parent).config_.anticogging.index = 0) :=
  ⟨⟨rfl, rfl, rfl, rfl, rfl, rfl, rfl, rfl, rfl⟩, ⟨rfl, rfl, rfl, rfl⟩,
    ⟨rfl, rfl, rfl, rfl, rfl, rfl⟩⟩

end ODrive
